/-
Verification of the SecureHub cryptographic core against its specification.

Shallow embedding of the relevant source modules:
  * src/modules/e2ee-crypto.js          (E2EECrypto.encryptMessage / decryptMessage)
  * src/modules/security-manager.js     (RateLimiter)
  * src/modules/key-cache.js            (KeyCache, generateCacheKey, simpleHash;
    its second bundled document is the crypto worker script `workers/crypto-worker.js`)
  * src/modules/zero-knowledge.js       (ZeroKnowledge.verifyPasswordProof, generateChallenge)
  * src/modules/crypto-worker-manager.js (CryptoWorkerManager)

JavaScript strings are modelled as Lean `String` (with explicit UTF-16
code-unit extraction where the code indexes by charCodeAt), byte arrays as
`List Nat` with values < 256, and `Date.now()` timestamps as explicit `now`
parameters threaded through each call.  JS `Map` objects are modelled as
total functions into `Option`.  Host-provided WebCrypto primitives
(AES-GCM, PBKDF2, TextEncoder/TextDecoder), which are not part of the
repository, are abstracted as a structure of functions together with the
guarantees the host platform documents for them.
-/
import Mathlib

namespace SecureHub

/-! ## JS `Map` update helper -/

/-- Update of a map modelled as a total function into `Option`
(`Map.set` / `Map.delete`). -/
def upd {α : Type} (f : String → α) (k : String) (v : α) : String → α :=
  fun x => if x = k then v else f x

@[simp] theorem upd_same {α : Type} (f : String → α) (k : String) (v : α) :
    upd f k v k = v := by
  simp [upd]

@[simp] theorem upd_other {α : Type} (f : String → α) (k : String) (v : α)
    (x : String) (h : x ≠ k) : upd f k v x = f x := by
  simp [upd, h]

/-! ## Base64 (`btoa` / `atob`)

`encryptMessage` stores ciphertext and IV as
`btoa(String.fromCharCode(...byteArray))`, and `decryptMessage` recovers the
bytes with `Uint8Array.from(atob(s), c => c.charCodeAt(0))`.  We model the
composition of both conversions directly on byte lists: `btoa` maps a list
of bytes to the list of UTF-16 code units of the base64 string, and `atob`
maps those code units back to bytes. -/

/-- Code of the base64 alphabet character for a sextet (A-Z, a-z, 0-9, +, /). -/
def b64Code (n : Nat) : Nat :=
  if n < 26 then 65 + n
  else if n < 52 then 71 + n
  else if n < 62 then n - 4
  else if n = 62 then 43
  else 47

/-- Sextet value of a base64 alphabet character code. -/
def b64Decode (c : Nat) : Nat :=
  if c = 43 then 62
  else if c = 47 then 63
  else if c < 58 then c + 4
  else if c < 91 then c - 65
  else c - 71

theorem b64Decode_b64Code {n : Nat} (h : n < 64) : b64Decode (b64Code n) = n := by
  simp only [b64Code, b64Decode]
  split_ifs <;> omega

theorem b64Code_lt {n : Nat} (h : n < 64) : b64Code n < 64 + 64 := by
  simp only [b64Code]; split_ifs <;> omega

/-- `b64Code` never produces the padding character `'='` (code 61). -/
theorem b64Code_ne_61 {n : Nat} (h : n < 64) : b64Code n ≠ 61 := by
  simp only [b64Code]; split_ifs <;> omega

/-- `btoa(String.fromCharCode(...bytes))`: base64-encode a byte list,
returning the code units of the resulting string (padding `'='` is 61). -/
def btoa : List Nat → List Nat
  | [] => []
  | [a] => [b64Code (a / 4), b64Code (a % 4 * 16), 61, 61]
  | [a, b] => [b64Code (a / 4), b64Code (a % 4 * 16 + b / 16), b64Code (b % 16 * 4), 61]
  | a :: b :: c :: rest =>
      b64Code (a / 4) :: b64Code (a % 4 * 16 + b / 16) ::
        b64Code (b % 16 * 4 + c / 64) :: b64Code (c % 64) :: btoa rest

/-- `atob` followed by `charCodeAt` on every position: base64-decode a list
of code units back to the byte list. -/
def atob : List Nat → List Nat
  | c0 :: c1 :: c2 :: c3 :: rest =>
      if c3 = 61 then
        if c2 = 61 then
          [b64Decode c0 * 4 + b64Decode c1 / 16]
        else
          [b64Decode c0 * 4 + b64Decode c1 / 16,
           b64Decode c1 % 16 * 16 + b64Decode c2 / 4]
      else
        (b64Decode c0 * 4 + b64Decode c1 / 16) ::
          (b64Decode c1 % 16 * 16 + b64Decode c2 / 4) ::
          (b64Decode c2 % 4 * 64 + b64Decode c3) :: atob rest
  | _ => []

/-- Base64 round-trip on byte lists: decoding an encoding is the identity. -/
theorem atob_btoa (l : List Nat) (h : ∀ b ∈ l, b < 256) : atob (btoa l) = l := by
  induction l using btoa.induct with
  | case1 => simp [btoa, atob]
  | case2 a =>
      have ha : a < 256 := h a (by simp)
      have h1 : a / 4 < 64 := by omega
      have h2 : a % 4 * 16 < 64 := by omega
      simp only [btoa, atob, b64Decode_b64Code h1, b64Decode_b64Code h2,
        if_true, List.cons.injEq, and_true]
      omega
  | case3 a b =>
      have ha : a < 256 := h a (by simp)
      have hb : b < 256 := h b (by simp)
      have h1 : a / 4 < 64 := by omega
      have h2 : a % 4 * 16 + b / 16 < 64 := by omega
      have h3 : b % 16 * 4 < 64 := by omega
      simp only [btoa, atob, b64Decode_b64Code h1, b64Decode_b64Code h2,
        b64Decode_b64Code h3, b64Code_ne_61 h3, if_true, if_false,
        List.cons.injEq, and_true]
      omega
  | case4 a b c rest ih =>
      have ha : a < 256 := h a (by simp)
      have hb : b < 256 := h b (by simp)
      have hc : c < 256 := h c (by simp)
      have h1 : a / 4 < 64 := by omega
      have h2 : a % 4 * 16 + b / 16 < 64 := by omega
      have h3 : b % 16 * 4 + c / 64 < 64 := by omega
      have h4 : c % 64 < 64 := by omega
      have hrest : ∀ x ∈ rest, x < 256 := fun x hx => h x (by simp [hx])
      simp only [btoa, atob, b64Decode_b64Code h1, b64Decode_b64Code h2,
        b64Decode_b64Code h3, b64Decode_b64Code h4, b64Code_ne_61 h4,
        if_false, ih hrest, List.cons.injEq, and_true]
      omega

/-! ## Host-provided WebCrypto / text-codec primitives

`encryptMessage` / `decryptMessage` call `window.crypto.subtle`
(AES-256-GCM) and `TextEncoder` / `TextDecoder`.  These are browser
primitives, not repository code; they are abstracted as a structure of
functions carrying exactly the guarantees the platform documents:
AES-GCM decryption with the same key and IV inverts encryption,
ciphertext is a byte sequence, and `TextDecoder` inverts `TextEncoder`.
`Key` is the opaque `CryptoKey` handle type and `Plain` the plaintext
string type. -/

structure HostCrypto (Key : Type) (Plain : Type) where
  /-- `crypto.subtle.encrypt({name:"AES-GCM", iv}, key, data)` as bytes. -/
  aeadEncrypt : Key → List Nat → List Nat → List Nat
  /-- `crypto.subtle.decrypt({name:"AES-GCM", iv}, key, data)`; `none` is the
  thrown `OperationError` on tag mismatch / malformed input. -/
  aeadDecrypt : Key → List Nat → List Nat → Option (List Nat)
  /-- `new TextEncoder().encode` (UTF-8 bytes of the plaintext). -/
  encode : Plain → List Nat
  /-- `new TextDecoder().decode`. -/
  decode : List Nat → Plain
  /-- `PBKDF2(password, salt, iterations)` key derivation
  (`crypto.subtle.deriveKey`/`deriveBits` with SHA-256), as raw key bytes. -/
  pbkdf2 : String → List Nat → Nat → List Nat
  /-- AEAD correctness: decrypting with the same key and IV inverts encryption. -/
  aead_roundtrip : ∀ k iv m, aeadDecrypt k iv (aeadEncrypt k iv m) = some m
  /-- Ciphertext of a byte sequence is a byte sequence. -/
  aead_bytes : ∀ k iv m, (∀ b ∈ m, b < 256) → ∀ b ∈ aeadEncrypt k iv m, b < 256
  /-- `TextDecoder` inverts `TextEncoder`. -/
  codec_roundtrip : ∀ p, decode (encode p) = p
  /-- `TextEncoder` produces bytes. -/
  encode_bytes : ∀ p, ∀ b ∈ encode p, b < 256

/-! ## E2EECrypto.encryptMessage / decryptMessage
(src/modules/e2ee-crypto.js, lines 113-174)

The random IV drawn by `window.crypto.getRandomValues(new Uint8Array(12))`
is passed as an explicit parameter, and `Date.now()` as `now`.  The
base64 strings in the envelope are lists of UTF-16 code units. -/

structure EncryptedEnvelope where
  ciphertext : List Nat
  iv : List Nat
  timestamp : Nat
  deriving DecidableEq

/-- `E2EECrypto.encryptMessage(message, key)` with the IV randomness and the
clock made explicit. -/
def encryptMessage {Key Plain : Type} (H : HostCrypto Key Plain)
    (message : Plain) (key : Key) (iv : List Nat) (now : Nat) :
    EncryptedEnvelope :=
  let data := H.encode message
  let encryptedArray := H.aeadEncrypt key iv data
  { ciphertext := btoa encryptedArray
    iv := btoa iv
    timestamp := now }

/-- `E2EECrypto.decryptMessage(encryptedData, key)`; the `catch` branch that
rethrows a generic error is the `Except.error` case. -/
def decryptMessage {Key Plain : Type} (H : HostCrypto Key Plain)
    (encryptedData : EncryptedEnvelope) (key : Key) : Except String Plain :=
  let ciphertext := atob encryptedData.ciphertext
  let iv := atob encryptedData.iv
  match H.aeadDecrypt key iv ciphertext with
  | some decrypted => Except.ok (H.decode decrypted)
  | none => Except.error "Failed to decrypt message - invalid key or corrupted data"

/-- C1: For every plaintext string P and every AEAD key K, decryptMessage
applied to the envelope produced by encryptMessage(P, K), with the same key
K, returns P. -/
theorem decryptMessage_encryptMessage {Key Plain : Type}
    (H : HostCrypto Key Plain) (P : Plain) (K : Key) (iv : List Nat)
    (now : Nat) (hiv : ∀ b ∈ iv, b < 256) :
    decryptMessage H (encryptMessage H P K iv now) K = Except.ok P := by
  simp only [decryptMessage, encryptMessage,
    atob_btoa _ (H.aead_bytes K iv (H.encode P) (H.encode_bytes P)),
    atob_btoa iv hiv, H.aead_roundtrip, H.codec_roundtrip]

/-- A concrete host-primitive instance used to witness the hypothesised
theorems: plaintexts are byte lists, encryption is the identity. -/
def trivialHost : HostCrypto Unit Unit where
  aeadEncrypt := fun _ _ m => m
  aeadDecrypt := fun _ _ c => some c
  encode := fun _ => []
  decode := fun _ => ()
  pbkdf2 := fun _ salt _ => salt
  aead_roundtrip := fun _ _ _ => rfl
  aead_bytes := fun _ _ _ h => h
  codec_roundtrip := fun _ => rfl
  encode_bytes := fun _ b hb => by simp at hb

/-- Witness for C1 at a concrete input. -/
theorem decryptMessage_encryptMessage_witness :
    decryptMessage trivialHost (encryptMessage trivialHost () () [0, 1, 255] 7) ()
      = Except.ok () :=
  decryptMessage_encryptMessage trivialHost () () [0, 1, 255] 7 (by decide)

/-! ## RateLimiter (src/modules/security-manager.js, lines 10-99)

`Date.now()` is the explicit `now` parameter.  The two `Map`s are modelled
as functions; the presentational `message` string in the result is omitted
(it is a fixed text rendering of `retryAfter`). -/

structure RateLimiter where
  attempts : String → List Nat
  maxAttempts : Nat
  windowMs : Nat
  blockedUntil : String → Option Nat

/-- `new RateLimiter(maxAttempts, windowMs)` (constructor defaults:
maxAttempts 5, windowMs 300000). -/
def RateLimiter.init (maxAttempts windowMs : Nat) : RateLimiter :=
  { attempts := fun _ => []
    maxAttempts := maxAttempts
    windowMs := windowMs
    blockedUntil := fun _ => none }

structure CheckResult where
  allowed : Bool
  retryAfter : Option Nat
  attemptsLeft : Option Nat
  deriving DecidableEq

/-- The part of `checkLimit` after the block-period guard: prune, then
either set a new block or record the attempt. -/
def RateLimiter.checkLimitUnblocked (rl : RateLimiter) (identifier : String)
    (now : Nat) : CheckResult × RateLimiter :=
  let userAttempts := rl.attempts identifier
  let recentAttempts := userAttempts.filter
    (fun (time : Nat) => (now : Int) - (time : Int) < (rl.windowMs : Int))
  if recentAttempts.length ≥ rl.maxAttempts then
    ({ allowed := false
       retryAfter := some ((rl.windowMs + 999) / 1000)
       attemptsLeft := none },
     { rl with blockedUntil := upd rl.blockedUntil identifier (some (now + rl.windowMs)) })
  else
    ({ allowed := true
       retryAfter := none
       attemptsLeft := some (rl.maxAttempts - (recentAttempts.length + 1)) },
     { rl with attempts := upd rl.attempts identifier (recentAttempts ++ [now]) })

/-- `RateLimiter.checkLimit(identifier)`.  `Math.ceil(x / 1000)` on a
positive integer `x` is `(x + 999) / 1000`; the `time => now - time <
windowMs` filter is computed over `Int` as JS number subtraction is. -/
def RateLimiter.checkLimit (rl : RateLimiter) (identifier : String)
    (now : Nat) : CheckResult × RateLimiter :=
  -- `if (blockedUntil && now < blockedUntil)`: a 0 timestamp is falsy in JS,
  -- but then `now < 0` is false as well, so the guard agrees with this model.
  match rl.blockedUntil identifier with
  | some blockedUntil =>
      if now < blockedUntil then
        ({ allowed := false
           retryAfter := some ((blockedUntil - now + 999) / 1000)
           attemptsLeft := none }, rl)
      else rl.checkLimitUnblocked identifier now
  | none => rl.checkLimitUnblocked identifier now

/-- `RateLimiter.reset(identifier)`. -/
def RateLimiter.reset (rl : RateLimiter) (identifier : String) : RateLimiter :=
  { rl with
    attempts := upd rl.attempts identifier []
    blockedUntil := upd rl.blockedUntil identifier none }

/-- A filter over timestamps that are all within the window keeps the list. -/
theorem recent_filter_eq_self {now w : Nat} {l : List Nat}
    (h : ∀ t ∈ l, (now : Int) - (t : Int) < (w : Int)) :
    l.filter (fun (time : Nat) => decide ((now : Int) - (time : Int) < (w : Int))) = l :=
  List.filter_eq_self.mpr fun t ht => decide_eq_true (h t ht)

/-- An unblocked `checkLimit` call whose recorded attempts are all within
the window and strictly below the limit allows, and appends the attempt. -/
theorem checkLimit_eq_allowed (rl : RateLimiter) (id : String) (now : Nat)
    (hb : rl.blockedUntil id = none)
    (hall : ∀ t ∈ rl.attempts id, (now : Int) - (t : Int) < (rl.windowMs : Int))
    (hlen : (rl.attempts id).length < rl.maxAttempts) :
    rl.checkLimit id now =
      ({ allowed := true, retryAfter := none,
         attemptsLeft := some (rl.maxAttempts - ((rl.attempts id).length + 1)) },
       { rl with attempts := upd rl.attempts id (rl.attempts id ++ [now]) }) := by
  simp only [RateLimiter.checkLimit, hb, RateLimiter.checkLimitUnblocked]
  rw [recent_filter_eq_self hall]
  simp [Nat.not_le.mpr hlen]

/-- An unblocked `checkLimit` call that has already reached the limit inside
the window denies and sets a block `windowMs` from now. -/
theorem checkLimit_eq_deny (rl : RateLimiter) (id : String) (now : Nat)
    (hb : rl.blockedUntil id = none)
    (hall : ∀ t ∈ rl.attempts id, (now : Int) - (t : Int) < (rl.windowMs : Int))
    (hlen : rl.maxAttempts ≤ (rl.attempts id).length) :
    rl.checkLimit id now =
      ({ allowed := false, retryAfter := some ((rl.windowMs + 999) / 1000),
         attemptsLeft := none },
       { rl with blockedUntil := upd rl.blockedUntil id (some (now + rl.windowMs)) }) := by
  simp only [RateLimiter.checkLimit, hb, RateLimiter.checkLimitUnblocked]
  rw [recent_filter_eq_self hall]
  simp [hlen]

/-- C2: with maxAttempts = 5, after five allowed checkLimit calls within the
window, the sixth call in the window is denied with a positive retry-after
(in seconds), and after reset the next call is allowed with attemptsLeft 4. -/
theorem rateLimiter_sixth_denied_reset_allows (id : String)
    (rl0 : RateLimiter) (t1 t2 t3 t4 t5 t6 t7 : Nat)
    (h0 : rl0 = RateLimiter.init 5 300000)
    (h12 : t1 ≤ t2) (h23 : t2 ≤ t3) (h34 : t3 ≤ t4) (h45 : t4 ≤ t5)
    (h56 : t5 ≤ t6) (hw : t6 < t1 + 300000) :
    let c1 := rl0.checkLimit id t1
    let c2 := c1.2.checkLimit id t2
    let c3 := c2.2.checkLimit id t3
    let c4 := c3.2.checkLimit id t4
    let c5 := c4.2.checkLimit id t5
    let c6 := c5.2.checkLimit id t6
    let c7 := (c6.2.reset id).checkLimit id t7
    c1.1.allowed = true ∧ c2.1.allowed = true ∧ c3.1.allowed = true ∧
    c4.1.allowed = true ∧ c5.1.allowed = true ∧
    c6.1.allowed = false ∧ (∃ r, c6.1.retryAfter = some r ∧ 0 < r) ∧
    c7.1.allowed = true ∧ c7.1.attemptsLeft = some 4 := by
  intro c1 c2 c3 c4 c5 c6 c7
  have a0 : rl0.attempts id = [] := by rw [h0]; rfl
  have b0 : rl0.blockedUntil id = none := by rw [h0]; rfl
  have m0 : rl0.maxAttempts = 5 := by rw [h0]; rfl
  have w0 : rl0.windowMs = 300000 := by rw [h0]; rfl
  -- step 1
  have E1 := checkLimit_eq_allowed rl0 id t1 b0 (by simp [a0]) (by simp [a0, m0])
  have r1 : c1.1.allowed = true := by
    show (rl0.checkLimit id t1).1.allowed = true; rw [E1]
  have a1 : c1.2.attempts id = [t1] := by
    show (rl0.checkLimit id t1).2.attempts id = [t1]; rw [E1]; simp [a0]
  have b1 : c1.2.blockedUntil id = none := by
    show (rl0.checkLimit id t1).2.blockedUntil id = none; rw [E1]; exact b0
  have m1 : c1.2.maxAttempts = 5 := by
    show (rl0.checkLimit id t1).2.maxAttempts = 5; rw [E1]; exact m0
  have w1 : c1.2.windowMs = 300000 := by
    show (rl0.checkLimit id t1).2.windowMs = 300000; rw [E1]; exact w0
  -- step 2
  have E2 := checkLimit_eq_allowed c1.2 id t2 b1
    (by simp only [a1, w1]; intro t ht; simp only [List.mem_singleton] at ht; omega)
    (by simp [a1, m1])
  have r2 : c2.1.allowed = true := by
    show (c1.2.checkLimit id t2).1.allowed = true; rw [E2]
  have a2 : c2.2.attempts id = [t1, t2] := by
    show (c1.2.checkLimit id t2).2.attempts id = [t1, t2]; rw [E2]; simp [a1]
  have b2 : c2.2.blockedUntil id = none := by
    show (c1.2.checkLimit id t2).2.blockedUntil id = none; rw [E2]; exact b1
  have m2 : c2.2.maxAttempts = 5 := by
    show (c1.2.checkLimit id t2).2.maxAttempts = 5; rw [E2]; exact m1
  have w2 : c2.2.windowMs = 300000 := by
    show (c1.2.checkLimit id t2).2.windowMs = 300000; rw [E2]; exact w1
  -- step 3
  have E3 := checkLimit_eq_allowed c2.2 id t3 b2
    (by simp only [a2, w2]; intro t ht
        simp only [List.mem_cons, List.mem_singleton, List.not_mem_nil, or_false] at ht
        omega)
    (by simp [a2, m2])
  have r3 : c3.1.allowed = true := by
    show (c2.2.checkLimit id t3).1.allowed = true; rw [E3]
  have a3 : c3.2.attempts id = [t1, t2, t3] := by
    show (c2.2.checkLimit id t3).2.attempts id = [t1, t2, t3]; rw [E3]; simp [a2]
  have b3 : c3.2.blockedUntil id = none := by
    show (c2.2.checkLimit id t3).2.blockedUntil id = none; rw [E3]; exact b2
  have m3 : c3.2.maxAttempts = 5 := by
    show (c2.2.checkLimit id t3).2.maxAttempts = 5; rw [E3]; exact m2
  have w3 : c3.2.windowMs = 300000 := by
    show (c2.2.checkLimit id t3).2.windowMs = 300000; rw [E3]; exact w2
  -- step 4
  have E4 := checkLimit_eq_allowed c3.2 id t4 b3
    (by simp only [a3, w3]; intro t ht
        simp only [List.mem_cons, List.mem_singleton, List.not_mem_nil, or_false] at ht
        omega)
    (by simp [a3, m3])
  have r4 : c4.1.allowed = true := by
    show (c3.2.checkLimit id t4).1.allowed = true; rw [E4]
  have a4 : c4.2.attempts id = [t1, t2, t3, t4] := by
    show (c3.2.checkLimit id t4).2.attempts id = [t1, t2, t3, t4]; rw [E4]; simp [a3]
  have b4 : c4.2.blockedUntil id = none := by
    show (c3.2.checkLimit id t4).2.blockedUntil id = none; rw [E4]; exact b3
  have m4 : c4.2.maxAttempts = 5 := by
    show (c3.2.checkLimit id t4).2.maxAttempts = 5; rw [E4]; exact m3
  have w4 : c4.2.windowMs = 300000 := by
    show (c3.2.checkLimit id t4).2.windowMs = 300000; rw [E4]; exact w3
  -- step 5
  have E5 := checkLimit_eq_allowed c4.2 id t5 b4
    (by simp only [a4, w4]; intro t ht
        simp only [List.mem_cons, List.mem_singleton, List.not_mem_nil, or_false] at ht
        omega)
    (by simp [a4, m4])
  have r5 : c5.1.allowed = true := by
    show (c4.2.checkLimit id t5).1.allowed = true; rw [E5]
  have a5 : c5.2.attempts id = [t1, t2, t3, t4, t5] := by
    show (c4.2.checkLimit id t5).2.attempts id = [t1, t2, t3, t4, t5]; rw [E5]; simp [a4]
  have b5 : c5.2.blockedUntil id = none := by
    show (c4.2.checkLimit id t5).2.blockedUntil id = none; rw [E5]; exact b4
  have m5 : c5.2.maxAttempts = 5 := by
    show (c4.2.checkLimit id t5).2.maxAttempts = 5; rw [E5]; exact m4
  have w5 : c5.2.windowMs = 300000 := by
    show (c4.2.checkLimit id t5).2.windowMs = 300000; rw [E5]; exact w4
  -- step 6: denied
  have E6 := checkLimit_eq_deny c5.2 id t6 b5
    (by simp only [a5, w5]; intro t ht
        simp only [List.mem_cons, List.mem_singleton, List.not_mem_nil, or_false] at ht
        omega)
    (by simp [a5, m5])
  have r6 : c6.1.allowed = false := by
    show (c5.2.checkLimit id t6).1.allowed = false; rw [E6]
  have r6r : c6.1.retryAfter = some 300 := by
    show (c5.2.checkLimit id t6).1.retryAfter = some 300; rw [E6]; simp [w5]
  have m6 : c6.2.maxAttempts = 5 := by
    show (c5.2.checkLimit id t6).2.maxAttempts = 5; rw [E6]; exact m5
  -- step 7: reset then allowed
  have E7 := checkLimit_eq_allowed (c6.2.reset id) id t7
    (by simp [RateLimiter.reset])
    (by simp [RateLimiter.reset])
    (by simp [RateLimiter.reset, m6])
  have r7 : c7.1.allowed = true := by
    show ((c6.2.reset id).checkLimit id t7).1.allowed = true; rw [E7]
  have r7l : c7.1.attemptsLeft = some 4 := by
    show ((c6.2.reset id).checkLimit id t7).1.attemptsLeft = some 4
    rw [E7]; simp [RateLimiter.reset, m6]
  exact ⟨r1, r2, r3, r4, r5, r6, ⟨300, r6r, by norm_num⟩, r7, r7l⟩

/-- Witness for C2 at concrete inputs. -/
theorem rateLimiter_sixth_denied_reset_allows_witness :
    let s0 := RateLimiter.init 5 300000
    let c1 := s0.checkLimit "vault-unlock" 0
    let c2 := c1.2.checkLimit "vault-unlock" 1
    let c3 := c2.2.checkLimit "vault-unlock" 2
    let c4 := c3.2.checkLimit "vault-unlock" 3
    let c5 := c4.2.checkLimit "vault-unlock" 4
    let c6 := c5.2.checkLimit "vault-unlock" 5
    let c7 := (c6.2.reset "vault-unlock").checkLimit "vault-unlock" 6
    c1.1.allowed = true ∧ c2.1.allowed = true ∧ c3.1.allowed = true ∧
    c4.1.allowed = true ∧ c5.1.allowed = true ∧
    c6.1.allowed = false ∧ (∃ r, c6.1.retryAfter = some r ∧ 0 < r) ∧
    c7.1.allowed = true ∧ c7.1.attemptsLeft = some 4 :=
  rateLimiter_sixth_denied_reset_allows "vault-unlock" (RateLimiter.init 5 300000)
    0 1 2 3 4 5 6 rfl
    (by decide) (by decide) (by decide) (by decide) (by decide) (by decide)

/-- C7: a checkLimit call from an unblocked state that has reached the limit
sets a block expiring exactly windowMs later; until that deadline every
checkLimit call is denied, reports the remaining seconds, and leaves the
state (in particular the recorded attempts) unchanged. -/
theorem checkLimit_block_behavior (rl : RateLimiter) (id : String)
    (now now' : Nat)
    (hb : rl.blockedUntil id = none)
    (hall : ∀ t ∈ rl.attempts id, (now : Int) - (t : Int) < (rl.windowMs : Int))
    (hlen : rl.maxAttempts ≤ (rl.attempts id).length) :
    let st := (rl.checkLimit id now).2
    st.blockedUntil id = some (now + rl.windowMs) ∧
    (now' < now + rl.windowMs →
      (st.checkLimit id now').1.allowed = false ∧
      (st.checkLimit id now').1.retryAfter =
        some ((now + rl.windowMs - now' + 999) / 1000) ∧
      (st.checkLimit id now').2 = st ∧
      (st.checkLimit id now').2.attempts id = rl.attempts id) := by
  intro st
  have hst : st = { rl with blockedUntil := upd rl.blockedUntil id (some (now + rl.windowMs)) } := by
    show (rl.checkLimit id now).2 = _
    rw [checkLimit_eq_deny rl id now hb hall hlen]
  constructor
  · rw [hst]; simp
  · intro hlt
    have hchk : st.checkLimit id now' =
        ({ allowed := false,
           retryAfter := some ((now + rl.windowMs - now' + 999) / 1000),
           attemptsLeft := none }, st) := by
      rw [hst]
      simp only [RateLimiter.checkLimit, upd_same]
      rw [if_pos hlt]
    refine ⟨by rw [hchk], by rw [hchk], by rw [hchk], ?_⟩
    rw [hchk, hst]

/-- Witness for C7 at concrete inputs. -/
theorem checkLimit_block_behavior_witness :
    let rl : RateLimiter :=
      { attempts := upd (fun _ => []) "zk-proof" [0, 1, 2, 3, 4]
        maxAttempts := 5
        windowMs := 300000
        blockedUntil := fun _ => none }
    let st := (rl.checkLimit "zk-proof" 10).2
    st.blockedUntil "zk-proof" = some (10 + rl.windowMs) ∧
    (20 < 10 + rl.windowMs →
      (st.checkLimit "zk-proof" 20).1.allowed = false ∧
      (st.checkLimit "zk-proof" 20).1.retryAfter =
        some ((10 + rl.windowMs - 20 + 999) / 1000) ∧
      (st.checkLimit "zk-proof" 20).2 = st ∧
      (st.checkLimit "zk-proof" 20).2.attempts "zk-proof" = rl.attempts "zk-proof") :=
  checkLimit_block_behavior _ "zk-proof" 10 20 rfl (by decide) (by decide)

/-! ## KeyCache (src/modules/key-cache.js)

`generateCacheKey` / `simpleHash` (lines 20-42) and `set` / `get`
(lines 50-83).  `simpleHash` iterates over UTF-16 code units
(`charCodeAt`) and wraps to a signed 32-bit integer (`hash & hash`);
`Math.abs(...).toString(36)` renders the magnitude in base 36. -/

/-- UTF-16 code units of a string as JS `charCodeAt` enumerates them
(code points above U+FFFF become surrogate pairs). -/
def jsCodeUnits (s : String) : List Nat :=
  s.data.flatMap fun c =>
    if c.toNat < 65536 then [c.toNat]
    else [55296 + (c.toNat - 65536) / 1024, 56320 + (c.toNat - 65536) % 1024]

/-- JS `ToInt32` (the effect of `hash & hash` on a number). -/
def toInt32 (n : Int) : Int := (n + 2 ^ 31) % 2 ^ 32 - 2 ^ 31

/-- One iteration `hash = ((hash << 5) - hash) + char; hash = hash & hash`
of `KeyCache.simpleHash` (`<<` already truncates to 32 bits in JS). -/
def hashStep (hash : Int) (char : Nat) : Int :=
  toInt32 (toInt32 (hash * 32) - hash + char)

/-- The signed 32-bit accumulator of `KeyCache.simpleHash`. -/
def simpleHashInt (str : String) : Int :=
  (jsCodeUnits str).foldl hashStep 0

/-- Digit character of `Number.prototype.toString(36)` (0-9 then a-z). -/
def base36Digit (n : Nat) : Char :=
  if n < 10 then Char.ofNat (48 + n) else Char.ofNat (87 + n)

/-- Base-36 digits of `n`, most significant first (`fuel` bounds the
recursion; any fuel above `n` is enough). -/
def natToBase36Go : Nat → Nat → List Char
  | 0, _ => []
  | fuel + 1, n =>
      if n = 0 then [] else natToBase36Go fuel (n / 36) ++ [base36Digit (n % 36)]

/-- `n.toString(36)` for a nonnegative number. -/
def natToBase36 (n : Nat) : String :=
  if n = 0 then "0" else String.mk (natToBase36Go (n + 1) n)

/-- `KeyCache.simpleHash(str)`. -/
def simpleHash (str : String) : String :=
  natToBase36 (simpleHashInt str).natAbs

/-- `KeyCache.generateCacheKey(password, salt)` for a string salt (a
`Uint8Array` salt is first rendered as its comma-joined decimal bytes;
the claims quantify over the resulting pair of strings). -/
def generateCacheKey (password : String) (salt : String) : String :=
  simpleHash password ++ "_" ++ simpleHash salt

structure CacheItem (α : Type) where
  value : α
  expiresAt : Nat
  createdAt : Nat
  hits : Nat

structure KeyCache (α : Type) where
  cache : String → Option (CacheItem α)
  defaultTTL : Nat

/-- `new KeyCache(defaultTTL)` (constructor default: 300000 ms). -/
def KeyCache.init (α : Type) (defaultTTL : Nat) : KeyCache α :=
  { cache := fun _ => none, defaultTTL := defaultTTL }

/-- `KeyCache.set(cacheKey, value, ttl)` at time `now`. -/
def KeyCache.set {α : Type} (kc : KeyCache α) (cacheKey : String) (value : α)
    (ttl : Nat) (now : Nat) : KeyCache α :=
  { kc with
    cache := upd kc.cache cacheKey
      (some { value := value, expiresAt := now + ttl, createdAt := now, hits := 0 }) }

/-- `KeyCache.get(cacheKey)` at time `now`: the returned value and the
cache state after the call (hit-counter increment, lazy eviction). -/
def KeyCache.get {α : Type} (kc : KeyCache α) (cacheKey : String) (now : Nat) :
    Option α × KeyCache α :=
  match kc.cache cacheKey with
  | none => (none, kc)
  | some item =>
      if now > item.expiresAt then
        (none, { kc with cache := upd kc.cache cacheKey none })
      else
        (some item.value,
         { kc with cache := upd kc.cache cacheKey (some { item with hits := item.hits + 1 }) })

/-- TTL behaviour of `set` / `get` for an arbitrary cache key. -/
theorem keyCache_ttl_behavior_key {α : Type} (key : String) (v : α)
    (ttl now now₁ now₂ : Nat) (kc : KeyCache α) :
    (KeyCache.get (KeyCache.set kc key v ttl now) key now).1 = some v ∧
    (now₁ ≤ now + ttl →
      (KeyCache.get (KeyCache.set kc key v ttl now) key now₁).1 = some v ∧
      (KeyCache.get (KeyCache.set kc key v ttl now) key now₁).2.cache key =
        some { value := v, expiresAt := now + ttl, createdAt := now, hits := 1 }) ∧
    (now + ttl < now₂ →
      (KeyCache.get (KeyCache.set kc key v ttl now) key now₂).1 = none ∧
      (KeyCache.get (KeyCache.set kc key v ttl now) key now₂).2.cache key = none) := by
  have hkc : (KeyCache.set kc key v ttl now).cache key =
      some { value := v, expiresAt := now + ttl, createdAt := now, hits := 0 } := by
    simp [KeyCache.set]
  refine ⟨?_, fun h₁ => ⟨?_, ?_⟩, fun h₂ => ⟨?_, ?_⟩⟩
  · simp only [KeyCache.get, hkc]
    rw [if_neg (by omega : ¬ now > now + ttl)]
  · simp only [KeyCache.get, hkc]
    rw [if_neg (by omega : ¬ now₁ > now + ttl)]
  · simp only [KeyCache.get, hkc]
    rw [if_neg (by omega : ¬ now₁ > now + ttl)]
    simp
  · simp only [KeyCache.get, hkc]
    rw [if_pos (by omega : now₂ > now + ttl)]
  · simp only [KeyCache.get, hkc]
    rw [if_pos (by omega : now₂ > now + ttl)]
    simp

/-- C3: after `set` with time-to-live `ttl` under the cache key derived from
(password, salt), `get` at the same instant returns the key; a `get` at any
time up to expiry returns it and leaves the stored expiry timestamp
unchanged (only the hit counter moves); a `get` strictly after `now + ttl`
returns nothing and removes the entry. -/
theorem keyCache_set_get_ttl {α : Type} (pw salt : String) (v : α)
    (ttl now now₁ now₂ : Nat) (kc : KeyCache α) :
    (KeyCache.get (KeyCache.set kc (generateCacheKey pw salt) v ttl now)
        (generateCacheKey pw salt) now).1 = some v ∧
    (now₁ ≤ now + ttl →
      (KeyCache.get (KeyCache.set kc (generateCacheKey pw salt) v ttl now)
          (generateCacheKey pw salt) now₁).1 = some v ∧
      (KeyCache.get (KeyCache.set kc (generateCacheKey pw salt) v ttl now)
          (generateCacheKey pw salt) now₁).2.cache (generateCacheKey pw salt) =
        some { value := v, expiresAt := now + ttl, createdAt := now, hits := 1 }) ∧
    (now + ttl < now₂ →
      (KeyCache.get (KeyCache.set kc (generateCacheKey pw salt) v ttl now)
          (generateCacheKey pw salt) now₂).1 = none ∧
      (KeyCache.get (KeyCache.set kc (generateCacheKey pw salt) v ttl now)
          (generateCacheKey pw salt) now₂).2.cache (generateCacheKey pw salt) = none) :=
  keyCache_ttl_behavior_key (generateCacheKey pw salt) v ttl now now₁ now₂ kc

/-- Witness for C3 at concrete inputs. -/
theorem keyCache_set_get_ttl_witness :
    (KeyCache.get (KeyCache.set (KeyCache.init Nat 300000) (generateCacheKey "pw" "salt") 42 100 0)
        (generateCacheKey "pw" "salt") 50).1 = some 42 ∧
    (KeyCache.get (KeyCache.set (KeyCache.init Nat 300000) (generateCacheKey "pw" "salt") 42 100 0)
        (generateCacheKey "pw" "salt") 101).1 = none :=
  ⟨((keyCache_set_get_ttl "pw" "salt" 42 100 0 50 101 (KeyCache.init Nat 300000)).2.1
      (by norm_num)).1,
   ((keyCache_set_get_ttl "pw" "salt" 42 100 0 50 101 (KeyCache.init Nat 300000)).2.2
      (by norm_num)).1⟩

/-- C8 counterexample: `simpleHash` is the 31-multiplier polynomial hash
truncated to 32 bits, which is not injective: the distinct passwords "Aa"
and "BB" (both hashing to 2112) yield the same derived cache key with the
same salt, and a `get` for ("Aa", salt) returns the value stored for
("BB", salt). -/
theorem generateCacheKey_collision :
    generateCacheKey "Aa" "s" = generateCacheKey "BB" "s" ∧
    ("Aa" : String) ≠ "BB" ∧
    (KeyCache.get
        (KeyCache.set (KeyCache.init Nat 300000) (generateCacheKey "BB" "s") 42 300000 0)
        (generateCacheKey "Aa" "s") 0).1 = some 42 := by
  refine ⟨by decide, by decide, ?_⟩
  have hk : generateCacheKey "Aa" "s" = generateCacheKey "BB" "s" := by decide
  rw [hk]
  exact (keyCache_ttl_behavior_key (generateCacheKey "BB" "s") 42 300000 0 0 0
    (KeyCache.init Nat 300000)).1

/-- C8 as amended: the derived cache key is a deterministic function of
(password, salt), but not injective; cross-pair isolation holds exactly
when the derived keys differ — a `set` under one derived key never changes
what `get` returns for a different derived key. -/
theorem keyCache_distinct_keys_isolated {α : Type}
    (pw₁ salt₁ pw₂ salt₂ : String) (v : α) (ttl now now' : Nat)
    (kc : KeyCache α)
    (hne : generateCacheKey pw₁ salt₁ ≠ generateCacheKey pw₂ salt₂) :
    (KeyCache.get (KeyCache.set kc (generateCacheKey pw₂ salt₂) v ttl now)
        (generateCacheKey pw₁ salt₁) now').1 =
      (KeyCache.get kc (generateCacheKey pw₁ salt₁) now').1 := by
  have hcell : (KeyCache.set kc (generateCacheKey pw₂ salt₂) v ttl now).cache
      (generateCacheKey pw₁ salt₁) = kc.cache (generateCacheKey pw₁ salt₁) := by
    simp [KeyCache.set, upd_other _ _ _ _ hne]
  simp only [KeyCache.get, hcell]
  cases kc.cache (generateCacheKey pw₁ salt₁) with
  | none => rfl
  | some item =>
      by_cases hexp : now' > item.expiresAt
      · simp [hexp]
      · simp [hexp]

/-- Witness for the amended C8 at concrete inputs. -/
theorem keyCache_distinct_keys_isolated_witness :
    (KeyCache.get (KeyCache.set (KeyCache.init Nat 300000) (generateCacheKey "b" "s") 7 100 0)
        (generateCacheKey "a" "s") 0).1 =
      (KeyCache.get (KeyCache.init Nat 300000) (generateCacheKey "a" "s") 0).1 :=
  keyCache_distinct_keys_isolated "a" "s" "b" "s" 7 100 0 0
    (KeyCache.init Nat 300000) (by decide)

/-! ## ZeroKnowledge (src/modules/zero-knowledge.js)

`generateChallenge` (lines 16-30) and `verifyPasswordProof` (lines 77-108).
The `try/catch` that converts any thrown error into a `false` return is
embedded by making the function total with explicit `false` results; state
mutations that happen before a `throw` (the expiry eviction) persist, as
they do in the source. -/

/-- Hex digit character (`toString(16)`). -/
def hexDigit (n : Nat) : Char :=
  if n < 10 then Char.ofNat (48 + n) else Char.ofNat (87 + n)

/-- `ZeroKnowledge.arrayToHex(array)`: two lowercase hex digits per byte
(`padStart(2, '0')`). -/
def arrayToHex (array : List Nat) : String :=
  String.mk (array.flatMap fun b => [hexDigit (b / 16), hexDigit (b % 16)])

structure ChallengeData where
  challenge : List Nat
  timestamp : Nat
  verified : Bool
  deriving DecidableEq

structure ProofRecord where
  verified : Bool
  timestamp : Nat
  deriving DecidableEq

structure ZKState where
  challenges : String → Option ChallengeData
  proofs : String → Option ProofRecord

/-- The password proof object; `createPasswordProof` returns string fields,
but `verifyPasswordProof` accepts arbitrary caller input, so each field may
be missing (`none`). -/
structure PasswordProof where
  commitment : Option String
  response : Option String
  salt : Option String
  timestamp : Nat
  deriving DecidableEq

/-- JS truthiness of a possibly-missing string field (missing and `""` are
falsy; `proof.commitment && proof.response && proof.salt` tests exactly
this). -/
def truthy : Option String → Bool
  | none => false
  | some s => !(s == "")

/-- `ZeroKnowledge.generateChallenge()` with the 32 random bytes and the
clock made explicit: stores the challenge keyed by its hex encoding with
`verified := false`. -/
def ZeroKnowledge.generateChallenge (st : ZKState) (challenge : List Nat)
    (now : Nat) : (String × String) × ZKState :=
  let challengeId := arrayToHex challenge
  ((challengeId, arrayToHex challenge),
   { st with
     challenges := upd st.challenges challengeId
       (some { challenge := challenge, timestamp := now, verified := false }) })

/-- `ZeroKnowledge.verifyPasswordProof(proof, challengeId,
storedPasswordHash)` at time `now`: returned boolean (the JS truthiness of
the returned value) and resulting state. -/
def ZeroKnowledge.verifyPasswordProof (st : ZKState) (pf : PasswordProof)
    (challengeId : String) (storedPasswordHash : String) (now : Nat) :
    Bool × ZKState :=
  match st.challenges challengeId with
  | none => (false, st)
  | some challengeData =>
      if now - challengeData.timestamp > 300000 then
        (false, { st with challenges := upd st.challenges challengeId none })
      else
        let isValid := truthy pf.commitment && truthy pf.response && truthy pf.salt
        if isValid then
          (true,
           { challenges := upd st.challenges challengeId
               (some { challengeData with verified := true })
             proofs := upd st.proofs challengeId
               (some { verified := true, timestamp := now }) })
        else (false, st)

/-- C4: verifyPasswordProof returns false (it is total, never throwing) on
an unknown challengeId; returns false and evicts the challenge when it is
older than 5 minutes; and on a structurally complete proof against a known
fresh challenge it returns true, marks the challenge verified, and stores a
verified-proof record. -/
theorem verifyPasswordProof_behavior (st : ZKState) (pf : PasswordProof)
    (cid storedHash : String) (now : Nat) :
    (st.challenges cid = none →
      ZeroKnowledge.verifyPasswordProof st pf cid storedHash now = (false, st)) ∧
    (∀ cd, st.challenges cid = some cd → 300000 < now - cd.timestamp →
      ZeroKnowledge.verifyPasswordProof st pf cid storedHash now =
        (false, { st with challenges := upd st.challenges cid none })) ∧
    (∀ cd, st.challenges cid = some cd → now - cd.timestamp ≤ 300000 →
      truthy pf.commitment = true → truthy pf.response = true →
      truthy pf.salt = true →
      ZeroKnowledge.verifyPasswordProof st pf cid storedHash now =
        (true,
         { challenges := upd st.challenges cid (some { cd with verified := true })
           proofs := upd st.proofs cid (some { verified := true, timestamp := now }) })) := by
  refine ⟨fun hn => ?_, fun cd hc hold => ?_, fun cd hc hfresh hcm hr hs => ?_⟩
  · simp [ZeroKnowledge.verifyPasswordProof, hn]
  · simp [ZeroKnowledge.verifyPasswordProof, hc, hold]
  · simp [ZeroKnowledge.verifyPasswordProof, hc, Nat.not_lt.mpr hfresh, hcm, hr, hs]

/-- Witness for C4 at concrete inputs. -/
theorem verifyPasswordProof_behavior_witness :
    (ZeroKnowledge.verifyPasswordProof
        { challenges := upd (fun _ => none) "c1"
            (some { challenge := [1, 2], timestamp := 1000, verified := false })
          proofs := fun _ => none }
        { commitment := some "aa", response := some "bb", salt := some "cc",
          timestamp := 1000 }
        "zz" "storedHash" 2000 =
      (false,
       { challenges := upd (fun _ => none) "c1"
           (some { challenge := [1, 2], timestamp := 1000, verified := false })
         proofs := fun _ => none })) ∧
    (ZeroKnowledge.verifyPasswordProof
        { challenges := upd (fun _ => none) "c1"
            (some { challenge := [1, 2], timestamp := 1000, verified := false })
          proofs := fun _ => none }
        { commitment := some "aa", response := some "bb", salt := some "cc",
          timestamp := 1000 }
        "c1" "storedHash" 2000).1 = true :=
  ⟨(verifyPasswordProof_behavior _ _ "zz" "storedHash" 2000).1 (by decide),
   by
    rw [(verifyPasswordProof_behavior _ _ "c1" "storedHash" 2000).2.2
      { challenge := [1, 2], timestamp := 1000, verified := false }
      (by decide) (by decide) (by decide) (by decide) (by decide)]⟩

/-- C9 counterexample: a successful verification does not consume the
challenge — a second verifyPasswordProof with the same challengeId on the
resulting state succeeds again. -/
theorem verifyPasswordProof_replay :
    (ZeroKnowledge.verifyPasswordProof
        { challenges := upd (fun _ => none) "c1"
            (some { challenge := [1], timestamp := 0, verified := false })
          proofs := fun _ => none }
        { commitment := some "x", response := some "y", salt := some "z",
          timestamp := 0 }
        "c1" "storedHash" 0).1 = true ∧
    (ZeroKnowledge.verifyPasswordProof
        (ZeroKnowledge.verifyPasswordProof
          { challenges := upd (fun _ => none) "c1"
              (some { challenge := [1], timestamp := 0, verified := false })
            proofs := fun _ => none }
          { commitment := some "x", response := some "y", salt := some "z",
            timestamp := 0 }
          "c1" "storedHash" 0).2
        { commitment := some "x", response := some "y", salt := some "z",
          timestamp := 0 }
        "c1" "storedHash" 0).1 = true := by
  decide

/-- C9 as amended: a successful verification marks the stored challenge
verified but keeps it in the challenge map, so any later structurally
complete verifyPasswordProof for the same challengeId within the
5-minute freshness window succeeds as well; a challenge disappears only
through expiry eviction or the periodic sweep. -/
theorem verifyPasswordProof_not_consumed (st : ZKState) (pf : PasswordProof)
    (cid storedHash storedHash' : String) (cd : ChallengeData) (now now' : Nat)
    (hc : st.challenges cid = some cd)
    (hf : now - cd.timestamp ≤ 300000) (hf' : now' - cd.timestamp ≤ 300000)
    (hcm : truthy pf.commitment = true) (hr : truthy pf.response = true)
    (hs : truthy pf.salt = true) :
    (ZeroKnowledge.verifyPasswordProof st pf cid storedHash now).1 = true ∧
    (ZeroKnowledge.verifyPasswordProof st pf cid storedHash now).2.challenges cid =
      some { cd with verified := true } ∧
    (ZeroKnowledge.verifyPasswordProof
        (ZeroKnowledge.verifyPasswordProof st pf cid storedHash now).2
        pf cid storedHash' now').1 = true := by
  have E1 := (verifyPasswordProof_behavior st pf cid storedHash now).2.2 cd hc hf hcm hr hs
  have hc2 : (ZeroKnowledge.verifyPasswordProof st pf cid storedHash now).2.challenges cid =
      some { cd with verified := true } := by
    rw [E1]; simp
  have E2 := (verifyPasswordProof_behavior
      (ZeroKnowledge.verifyPasswordProof st pf cid storedHash now).2
      pf cid storedHash' now').2.2 { cd with verified := true } hc2 hf' hcm hr hs
  exact ⟨by rw [E1], hc2, by rw [E2]⟩

/-- Witness for the amended C9 at concrete inputs. -/
theorem verifyPasswordProof_not_consumed_witness :
    (ZeroKnowledge.verifyPasswordProof
        { challenges := upd (fun _ => none) "c2"
            (some { challenge := [5], timestamp := 100, verified := false })
          proofs := fun _ => none }
        { commitment := some "u", response := some "v", salt := some "w",
          timestamp := 100 }
        "c2" "h1" 200).1 = true ∧
    (ZeroKnowledge.verifyPasswordProof
        { challenges := upd (fun _ => none) "c2"
            (some { challenge := [5], timestamp := 100, verified := false })
          proofs := fun _ => none }
        { commitment := some "u", response := some "v", salt := some "w",
          timestamp := 100 }
        "c2" "h1" 200).2.challenges "c2" =
      some { challenge := [5], timestamp := 100, verified := true } ∧
    (ZeroKnowledge.verifyPasswordProof
        (ZeroKnowledge.verifyPasswordProof
          { challenges := upd (fun _ => none) "c2"
              (some { challenge := [5], timestamp := 100, verified := false })
            proofs := fun _ => none }
          { commitment := some "u", response := some "v", salt := some "w",
            timestamp := 100 }
          "c2" "h1" 200).2
        { commitment := some "u", response := some "v", salt := some "w",
          timestamp := 100 }
        "c2" "h2" 300).1 = true :=
  verifyPasswordProof_not_consumed _ _ "c2" "h1" "h2"
    { challenge := [5], timestamp := 100, verified := false } 200 300
    (by decide) (by decide) (by decide) (by decide) (by decide) (by decide)

/-- C10: the result of verifyPasswordProof — the returned boolean and the
entire resulting state — does not depend on the storedPasswordHash
argument, which the function never reads. -/
theorem verifyPasswordProof_hash_independent (st : ZKState)
    (pf : PasswordProof) (cid : String) (hash₁ hash₂ : String) (now : Nat) :
    ZeroKnowledge.verifyPasswordProof st pf cid hash₁ now =
      ZeroKnowledge.verifyPasswordProof st pf cid hash₂ now := rfl

/-! ## CryptoWorkerManager (src/modules/crypto-worker-manager.js)

`execute` (lines 114-162), `executeInMainThread` (lines 170-183) and
`terminate` (lines 188-195).  The pool state is modelled after
initialization has completed (initialization constructs host `Worker`
objects); each pending operation's promise callbacks are represented by
its entry in `pendingOperations` — an entry is settled (resolved or
rejected) only by an event that removes it, so a function that emits no
settlement and keeps the entry leaves the promise pending. -/

structure WorkerEntry where
  busy : Bool
  id : Nat
  deriving DecidableEq

structure PendingOp where
  workerId : Option Nat
  deriving DecidableEq

structure CWMState where
  workers : List WorkerEntry
  pendingOperations : List (Nat × PendingOp)
  operationId : Nat
  initialized : Bool

/-- `CryptoWorkerManager.terminate()`: the state after the call, paired
with the list of (operation id, error) promise rejections it issues —
the source issues none. -/
def CryptoWorkerManager.terminate (st : CWMState) :
    CWMState × List (Nat × String) :=
  ({ st with workers := [], initialized := false }, [])

/-- C5 (divergence from the claim): `terminate()` empties the worker list
and drops the initialized flag, but leaves `pendingOperations` exactly as
it was and rejects nothing — no in-flight operation is settled with a
`PoolTerminatedError` (no such error exists in the module); each pending
promise stays pending until its own timeout fires. -/
theorem terminate_keeps_pending (st : CWMState) :
    (CryptoWorkerManager.terminate st).1.workers = [] ∧
    (CryptoWorkerManager.terminate st).1.initialized = false ∧
    (CryptoWorkerManager.terminate st).1.pendingOperations = st.pendingOperations ∧
    (CryptoWorkerManager.terminate st).2 = [] :=
  ⟨rfl, rfl, rfl, rfl⟩

/-- `CryptoWorkerManager.getAvailableWorker()`. -/
def getAvailableWorker (st : CWMState) : Option WorkerEntry :=
  st.workers.find? (fun w => !w.busy)

/-- The worker's `deriveKey` salt argument, which may arrive as a base64
string (`typeof salt === 'string'`, given as its code units) or as a
`Uint8Array` of bytes. -/
inductive JsSalt where
  | str (codeUnits : List Nat)
  | bytes (b : List Nat)
  deriving DecidableEq

/-- The untyped `data` object of an `execute` request: the union of the
fields the worker's six operations destructure (`{password, salt,
iterations}`, `{plaintext, keyJwk}`, `{ciphertext, iv, keyJwk}`,
`{curve}`, `{privateKeyJwk, publicKeyJwk}`, `{message}`).  `Jwk` is the
opaque type of JWK key objects. -/
structure WorkerRequest (Plain Jwk : Type) where
  password : String
  salt : JsSalt
  iterations : Option Nat
  plaintext : Plain
  keyJwk : Jwk
  ciphertext : List Nat
  iv : List Nat
  privateKeyJwk : Jwk
  publicKeyJwk : Jwk
  curve : Option String
  message : Plain

/-- A completed crypto operation's result, as the worker posts it back or
as the main-thread fallback resolves it. -/
inductive OpResult (Plain Jwk : Type) where
  /-- A `CryptoKey` handle (what `e2eeCrypto.deriveKeyFromPassword`
  resolves to), identified by its raw key material. -/
  | cryptoKey (material : List Nat)
  /-- The worker's `deriveKey` response `{key: exportedJwk, salt: base64}`. -/
  | derivedKeyExport (key : Jwk) (saltB64 : List Nat)
  /-- The worker's `encryptData` response `{ciphertext, iv, timestamp}`. -/
  | encrypted (envelope : EncryptedEnvelope)
  /-- The worker's `decryptData` response (a plaintext string). -/
  | plain (p : Plain)
  /-- The worker's `generateKeyPair` response `{publicKey, privateKey}`. -/
  | keyPair (publicKey : Jwk) (privateKey : Jwk)
  /-- The worker's `deriveSharedSecret` response `{sharedSecret}`. -/
  | sharedSecret (secret : Jwk)
  /-- The worker's `hashData` response (a hex string). -/
  | hashHex (hex : String)
  deriving DecidableEq

/-- `CryptoWorkerManager.executeInMainThread(type, data)`: only
`deriveKey` is implemented, and it calls
`e2eeCrypto.deriveKeyFromPassword(data.password, new Uint8Array(16))` —
a fresh all-zero 16-byte salt and that function's fixed 100000 iteration
count, ignoring `data.salt` and `data.iterations` — resolving to the
`CryptoKey` handle; `encryptData` and every other operation type throw. -/
def executeInMainThread {Key Plain Jwk : Type} (H : HostCrypto Key Plain)
    (type : String) (data : WorkerRequest Plain Jwk) :
    Except String (OpResult Plain Jwk) :=
  if type = "deriveKey" then
    Except.ok (OpResult.cryptoKey (H.pbkdf2 data.password (List.replicate 16 0) 100000))
  else if type = "encryptData" then
    Except.error "Main thread fallback not implemented for this operation"
  else
    Except.error ("Unknown operation: " ++ type)

/-- The worker-side host primitives beyond `HostCrypto`: JWK
import/export for AES keys, ECDH key-pair generation / shared-secret
derivation (with JWK export), and the SHA-256 digest.  These carry no
assumed properties; keys are identified with their raw material for
import/export purposes. -/
structure WorkerHost (Key Plain Jwk : Type) where
  crypto : HostCrypto Key Plain
  /-- `crypto.subtle.importKey('jwk', keyJwk, {name:'AES-GCM'}, ...)`. -/
  importAesJwk : Jwk → Key
  /-- `crypto.subtle.exportKey('jwk', key)` of a derived AES key. -/
  exportAesJwk : List Nat → Jwk
  /-- `crypto.subtle.generateKey({name:'ECDH', namedCurve: curve}, ...)`
  plus JWK export of both halves, as a function of the entropy drawn. -/
  ecdhGenerateKeyPair : String → List Nat → Jwk × Jwk
  /-- ECDH `deriveKey` from imported private and public JWKs, plus export. -/
  ecdhDeriveSharedSecret : Jwk → Jwk → Jwk
  /-- `crypto.subtle.digest('SHA-256', data)`. -/
  sha256 : List Nat → List Nat

/-- The crypto worker script `workers/crypto-worker.js` (bundled as the
second document of src/modules/key-cache.js): the result the message
handler computes for a request `{id, type, data}` and posts back —
`Except.ok` is a `{success: true, result}` response, `Except.error` a
`{success: false, error}` response.  `workerIv` is the IV the worker's
`encryptData` draws from `getRandomValues`, `entropy` the randomness of
`generateKeyPair`, and `now` the clock.  String salts are base64-decoded
(`Uint8Array.from(atob(salt), ...)`), byte salts used as given, and the
`deriveKey` response is `{key: exportedJwk, salt: btoa(saltBuffer)}`.  The
`decryptData` error text stands for the host `OperationError` message of a
failed AES-GCM decryption (host-defined, not fixed by the source). -/
def workerCompute {Key Plain Jwk : Type} (W : WorkerHost Key Plain Jwk)
    (type : String) (data : WorkerRequest Plain Jwk)
    (workerIv entropy : List Nat) (now : Nat) :
    Except String (OpResult Plain Jwk) :=
  if type = "deriveKey" then
    let saltBuffer :=
      match data.salt with
      | JsSalt.str s => atob s
      | JsSalt.bytes b => b
    Except.ok (OpResult.derivedKeyExport
      (W.exportAesJwk
        (W.crypto.pbkdf2 data.password saltBuffer (data.iterations.getD 100000)))
      (btoa saltBuffer))
  else if type = "encryptData" then
    Except.ok (OpResult.encrypted
      (encryptMessage W.crypto data.plaintext (W.importAesJwk data.keyJwk) workerIv now))
  else if type = "decryptData" then
    match W.crypto.aeadDecrypt (W.importAesJwk data.keyJwk)
        (atob data.iv) (atob data.ciphertext) with
    | some decrypted => Except.ok (OpResult.plain (W.crypto.decode decrypted))
    | none => Except.error "OperationError"
  else if type = "generateKeyPair" then
    let pair := W.ecdhGenerateKeyPair (data.curve.getD "P-256") entropy
    Except.ok (OpResult.keyPair pair.1 pair.2)
  else if type = "deriveSharedSecret" then
    Except.ok (OpResult.sharedSecret
      (W.ecdhDeriveSharedSecret data.privateKeyJwk data.publicKeyJwk))
  else if type = "hashData" then
    Except.ok (OpResult.hashHex (arrayToHex (W.sha256 (W.crypto.encode data.message))))
  else
    Except.error ("Unknown operation type: " ++ type)

/-- Outcome of one `execute` call: either an inline (main-thread) result,
or a dispatch of the request to a worker with the updated pool state. -/
inductive ExecOutcome (Plain Jwk : Type) where
  | inline (result : Except String (OpResult Plain Jwk))
  | dispatched (opId : Nat) (workerId : Nat) (st : CWMState)

/-- `CryptoWorkerManager.execute(type, data)` on an initialized pool: with
no workers, or none idle, it runs `executeInMainThread`; otherwise it marks
the chosen worker busy, registers the pending operation under a fresh
operation id, and posts the request. -/
def CryptoWorkerManager.execute {Key Plain Jwk : Type} (H : HostCrypto Key Plain)
    (st : CWMState) (type : String) (data : WorkerRequest Plain Jwk) :
    ExecOutcome Plain Jwk :=
  if st.workers.length = 0 then
    ExecOutcome.inline (executeInMainThread H type data)
  else
    match getAvailableWorker st with
    | none => ExecOutcome.inline (executeInMainThread H type data)
    | some workerObj =>
        ExecOutcome.dispatched st.operationId workerObj.id
          { st with
            workers := st.workers.map
              (fun w => if w.id = workerObj.id then { w with busy := true } else w)
            pendingOperations :=
              (st.operationId, { workerId := some workerObj.id }) :: st.pendingOperations
            operationId := st.operationId + 1 }

instance {ε α : Type} [DecidableEq ε] [DecidableEq α] :
    DecidableEq (Except ε α)
  | Except.error e₁, Except.error e₂ =>
      if h : e₁ = e₂ then isTrue (by rw [h])
      else isFalse (by intro hc; injection hc; contradiction)
  | Except.error _, Except.ok _ => isFalse (by intro hc; cases hc)
  | Except.ok _, Except.error _ => isFalse (by intro hc; cases hc)
  | Except.ok a₁, Except.ok a₂ =>
      if h : a₁ = a₂ then isTrue (by rw [h])
      else isFalse (by intro hc; injection hc; contradiction)

/-- A concrete worker-host instance over `trivialHost`, used for the
concrete counterexample and witnesses. -/
def trivialWorkerHost : WorkerHost Unit Unit Unit where
  crypto := trivialHost
  importAesJwk := fun _ => ()
  exportAesJwk := fun _ => ()
  ecdhGenerateKeyPair := fun _ _ => ((), ())
  ecdhDeriveSharedSecret := fun _ _ => ()
  sha256 := fun _ => []

/-- A concrete request payload for the counterexample and witnesses. -/
def sampleRequest : WorkerRequest Unit Unit where
  password := "pw"
  salt := JsSalt.bytes [1]
  iterations := some 1000
  plaintext := ()
  keyJwk := ()
  ciphertext := []
  iv := []
  privateKeyJwk := ()
  publicKeyJwk := ()
  curve := none
  message := ()

/-- C6 counterexample: with the pool degraded, execute does run inline, but
the inline path does not compute what the worker computes for the same
operation type and payload — for `deriveKey` the inline result is a
`CryptoKey` derived from a fixed all-zero salt while the worker responds
with a `{key, salt}` export derived from the payload's salt, and for
`encryptData` the inline path fails while the worker succeeds. -/
theorem executeInMainThread_ne_workerCompute :
    (CryptoWorkerManager.execute trivialHost
        { workers := [], pendingOperations := [], operationId := 0, initialized := false }
        "deriveKey" sampleRequest =
      ExecOutcome.inline (executeInMainThread trivialHost "deriveKey" sampleRequest)) ∧
    executeInMainThread trivialHost "deriveKey" sampleRequest ≠
      workerCompute trivialWorkerHost "deriveKey" sampleRequest [] [] 0 ∧
    executeInMainThread trivialHost "encryptData" sampleRequest =
      Except.error "Main thread fallback not implemented for this operation" ∧
    ∃ r, workerCompute trivialWorkerHost "encryptData" sampleRequest [] [] 0 =
      Except.ok r := by
  refine ⟨rfl, by decide, rfl, ⟨_, rfl⟩⟩

/-- C6 as amended: when the pool has zero workers or no idle worker,
`execute` runs the operation inline in the caller's context rather than
queuing; the inline path computes only `deriveKey` — as a `CryptoKey` from
a fixed all-zero 16-byte salt and 100000 iterations regardless of the
payload's salt and iteration count, where the worker would respond with a
`{key, salt}` export derived from the payload's salt — and fails with an
error for every other operation type, although the worker implements
`encryptData`, `generateKeyPair`, `deriveSharedSecret` and `hashData`
(and `decryptData`), so inline execution does not produce the worker-path
result. -/
theorem execute_inline_when_no_idle_worker {Key Plain Jwk : Type}
    (H : HostCrypto Key Plain) (st : CWMState)
    (data : WorkerRequest Plain Jwk)
    (hbusy : ∀ w ∈ st.workers, w.busy = true) :
    (∀ type, CryptoWorkerManager.execute H st type data =
      ExecOutcome.inline (executeInMainThread H type data)) ∧
    executeInMainThread H "deriveKey" data =
      Except.ok (OpResult.cryptoKey (H.pbkdf2 data.password (List.replicate 16 0) 100000)) ∧
    (∀ type, type ≠ "deriveKey" →
      ∃ e, executeInMainThread H type data = Except.error e) ∧
    (∀ (W : WorkerHost Key Plain Jwk) workerIv entropy now,
      (∃ r, workerCompute W "encryptData" data workerIv entropy now = Except.ok r) ∧
      (∃ r, workerCompute W "generateKeyPair" data workerIv entropy now = Except.ok r) ∧
      (∃ r, workerCompute W "deriveSharedSecret" data workerIv entropy now = Except.ok r) ∧
      (∃ r, workerCompute W "hashData" data workerIv entropy now = Except.ok r)) := by
  refine ⟨fun type => ?_, rfl, fun type ht => ?_,
    fun W workerIv entropy now => ⟨⟨_, rfl⟩, ⟨_, rfl⟩, ⟨_, rfl⟩, ⟨_, rfl⟩⟩⟩
  · have hfind : getAvailableWorker st = none := by
      apply List.find?_eq_none.mpr
      intro w hw
      simp [hbusy w hw]
    by_cases hlen : st.workers.length = 0
    · simp [CryptoWorkerManager.execute, hlen]
    · simp [CryptoWorkerManager.execute, hlen, hfind]
  · by_cases henc : type = "encryptData"
    · refine ⟨"Main thread fallback not implemented for this operation", ?_⟩
      simp [executeInMainThread, ht, henc]
    · refine ⟨"Unknown operation: " ++ type, ?_⟩
      simp [executeInMainThread, ht, henc]

/-- Witness for the amended C6 at concrete inputs (an all-busy pool). -/
theorem execute_inline_when_no_idle_worker_witness :
    (∀ type, CryptoWorkerManager.execute trivialHost
        { workers := [{ busy := true, id := 0 }, { busy := true, id := 1 }],
          pendingOperations := [], operationId := 3, initialized := true }
        type sampleRequest =
      ExecOutcome.inline (executeInMainThread trivialHost type sampleRequest)) ∧
    executeInMainThread trivialHost "deriveKey" sampleRequest =
      Except.ok (OpResult.cryptoKey (trivialHost.pbkdf2 "pw" (List.replicate 16 0) 100000)) ∧
    (∀ type, type ≠ "deriveKey" →
      ∃ e, executeInMainThread trivialHost type sampleRequest = Except.error e) ∧
    (∀ (W : WorkerHost Unit Unit Unit) workerIv entropy now,
      (∃ r, workerCompute W "encryptData" sampleRequest workerIv entropy now = Except.ok r) ∧
      (∃ r, workerCompute W "generateKeyPair" sampleRequest workerIv entropy now = Except.ok r) ∧
      (∃ r, workerCompute W "deriveSharedSecret" sampleRequest workerIv entropy now = Except.ok r) ∧
      (∃ r, workerCompute W "hashData" sampleRequest workerIv entropy now = Except.ok r)) :=
  execute_inline_when_no_idle_worker trivialHost
    { workers := [{ busy := true, id := 0 }, { busy := true, id := 1 }],
      pendingOperations := [], operationId := 3, initialized := true }
    sampleRequest
    (by decide)

end SecureHub
